import Mathlib

/-!
Verification of the PEISR core against its specification.

The development shallowly embeds the Python sources:
  gemini_client.py  (structured-output recovery),
  intent_classifier.py (deterministic router, generative fallback, policy),
  rewriter.py (critique normalization, self-refine loop),
  judge.py (deterministic heuristic judge).

Modelling conventions:
  * Python `str` is `String` / `List Char`; slicing, `strip`, `split`
    are re-implemented below with Python's semantics (ASCII range).
  * Python `float` is `PyFloat` (exact rationals plus nan / signed inf);
    `round` is banker's rounding as in Python 3.
  * Dynamically typed generator output is `PyValue`.  JSON-derived
    mappings have string keys, so dictionaries are string-keyed
    association lists (first match wins, as Python dict keys are unique).
  * The external generation SDK is an explicit environment `GenEnv` of
    fallible calls (an exception is modelled by its type/message string);
    `json.loads` of the standard library is a parameter `JsonLoads`.
-/

abbrev Chars := List Char

/-- Characters stripped by Python's default `str.strip` (ASCII range). -/
def pyWsChar (c : Char) : Bool :=
  c = ' ' || c = '\t' || c = '\n' || c = '\r' || c = '\x0b' || c = '\x0c'

def lstripL (cs : Chars) : Chars := cs.dropWhile pyWsChar

def rstripL (cs : Chars) : Chars := (cs.reverse.dropWhile pyWsChar).reverse

def stripL (cs : Chars) : Chars := rstripL (lstripL cs)

/-- Python `s.strip()`. -/
def pyStrip (s : String) : String := ⟨stripL s.data⟩

/-- Python `s.rstrip()`. -/
def pyRStrip (s : String) : String := ⟨rstripL s.data⟩

/-- Python slicing `s[:n]` (by code points, as in Python). -/
def takeStr (s : String) (n : Nat) : String := ⟨s.data.take n⟩

/-- Boolean prefix test on character lists. -/
def isPrefixL : Chars → Chars → Bool
  | [], _ => true
  | _ :: _, [] => false
  | a :: as, b :: bs => a = b && isPrefixL as bs

def isSuffixL (a b : Chars) : Bool := isPrefixL a.reverse b.reverse

/-- Python `needle in hay` on strings (substring containment). -/
def containsSubL (needle : Chars) : Chars → Bool
  | [] => isPrefixL needle []
  | c :: cs => isPrefixL needle (c :: cs) || containsSubL needle cs

/-- Number of fields of Python `s.split()` (split on whitespace runs).
The flag records whether the previous character belonged to a word. -/
def wordsCount : Chars → Bool → Nat
  | [], _ => 0
  | c :: cs, inWord =>
    if pyWsChar c then wordsCount cs false
    else (if inWord then 0 else 1) + wordsCount cs true

/-- Python floats: exact rational value, or nan, or a signed infinity. -/
inductive PyFloat
  | nan
  | inf (neg : Bool)
  | num (q : ℚ)
deriving DecidableEq, Repr

/-- Dynamically typed Python values as they occur in recovered generator
output.  JSON object keys are strings, hence string-keyed dictionaries. -/
inductive PyValue
  | none
  | bool (b : Bool)
  | int (n : ℤ)
  | float (f : PyFloat)
  | str (s : String)
  | list (xs : List PyValue)
  | dict (kvs : List (String × PyValue))

def PyValue.isDict : PyValue → Bool
  | .dict _ => true
  | _ => false

def dictItems : PyValue → List (String × PyValue)
  | .dict kvs => kvs
  | _ => []

/-- Python `d.get(k, dflt)` on a string-keyed dictionary. -/
def dictGet (d : PyValue) (k : String) (dflt : PyValue) : PyValue :=
  match d with
  | .dict kvs =>
    match kvs.find? (fun kv => kv.1 = k) with
    | some kv => kv.2
    | Option.none => dflt
  | _ => dflt

/-- Python truthiness. -/
def pyTruthy : PyValue → Bool
  | .none => false
  | .bool b => b
  | .int n => n ≠ 0
  | .float (.num q) => q ≠ 0
  | .float _ => true
  | .str s => s ≠ ""
  | .list xs => !xs.isEmpty
  | .dict kvs => !kvs.isEmpty

def pyFloatRepr : PyFloat → String
  | .nan => "nan"
  | .inf false => "inf"
  | .inf true => "-inf"
  | .num q => toString q

/-- Python `str(x)`.  Container renderings are abbreviated: the only
consumer below compares the result against the five route names after
strip/upper, which no container rendering can equal. -/
def pyStr : PyValue → String
  | .none => "None"
  | .bool true => "True"
  | .bool false => "False"
  | .int n => toString n
  | .float f => pyFloatRepr f
  | .str s => s
  | .list _ => "[...]"
  | .dict _ => "\x7b...\x7d"

def digitsToNat (ds : Chars) : Nat :=
  ds.foldl (fun a c => a * 10 + (c.toNat - '0'.toNat)) 0

/-- Python `float(s)` on a string: optional sign, then nan / inf /
decimal literal with optional fraction and exponent.  (Underscore
digit grouping is not modelled; no input below uses it.) -/
def parseFloatStr (s : String) : Option PyFloat :=
  let cs := (stripL s.data).map Char.toLower
  let (neg, cs) :=
    match cs with
    | '-' :: r => (true, r)
    | '+' :: r => (false, r)
    | r => (false, r)
  if cs = ("nan".data) then some .nan
  else if cs = ("inf".data) || cs = ("infinity".data) then some (.inf neg)
  else
    let d1 := cs.takeWhile Char.isDigit
    let r1 := cs.dropWhile Char.isDigit
    let (d2, r2) :=
      match r1 with
      | '.' :: t => (t.takeWhile Char.isDigit, t.dropWhile Char.isDigit)
      | _ => ([], r1)
    if d1.isEmpty && d2.isEmpty then Option.none
    else
      let mant : ℚ := (digitsToNat (d1 ++ d2) : ℚ) / ((10 : ℚ) ^ d2.length)
      let signed : ℚ := if neg then -mant else mant
      match r2 with
      | [] => some (.num signed)
      | 'e' :: t =>
        let (eneg, t) :=
          match t with
          | '-' :: u => (true, u)
          | '+' :: u => (false, u)
          | u => (false, u)
        let ed := t.takeWhile Char.isDigit
        if ed.isEmpty || !(t.dropWhile Char.isDigit).isEmpty then Option.none
        else
          let e := digitsToNat ed
          some (.num (if eneg then signed / (10 : ℚ) ^ e else signed * (10 : ℚ) ^ e))
      | _ => Option.none

/-- Python `float(x)`: `Option.none` models a raised conversion error. -/
def pyToFloat : PyValue → Option PyFloat
  | .int n => some (.num n)
  | .float f => some f
  | .bool b => some (.num (if b then 1 else 0))
  | .str s => parseFloatStr s
  | _ => Option.none

/-- Python `int(s)` on a string: optional sign and digits only. -/
def parseIntStr (s : String) : Option ℤ :=
  let cs := stripL s.data
  let (neg, cs) :=
    match cs with
    | '-' :: r => (true, r)
    | '+' :: r => (false, r)
    | r => (false, r)
  if cs.isEmpty || !(cs.all Char.isDigit) then Option.none
  else some (if neg then -(digitsToNat cs : ℤ) else (digitsToNat cs : ℤ))

/-- Truncation toward zero, as Python `int(float)`. -/
def ratTrunc (q : ℚ) : ℤ := if 0 ≤ q then q.floor else -((-q).floor)

/-- Python `int(x)`: `Option.none` models a raised conversion error
(`int(nan)`, `int(inf)`, `int(None)`, containers all raise). -/
def pyToInt : PyValue → Option ℤ
  | .int n => some n
  | .bool b => some (if b then 1 else 0)
  | .float (.num q) => some (ratTrunc q)
  | .float _ => Option.none
  | .str s => parseIntStr s
  | _ => Option.none

/-- Python 3 `round` on an exact value: round half to even. -/
def pyRound (q : ℚ) : ℤ :=
  let f := q.floor
  let r := q - f
  if r < 1 / 2 then f
  else if 1 / 2 < r then f + 1
  else if f % 2 = 0 then f else f + 1

/-- The generation service (gemini_client.py module state): each call
either returns the response text or raises, the exception being
modelled by its type/message string. -/
structure GenEnv where
  genTextRaw : String → String → ℚ → Except String String
  genJsonRaw : String → String → ℚ → Except String String

/-- The standard library `json.loads`, as an external deterministic
capability: parsed value or a `JSONDecodeError` message. -/
abbrev JsonLoads := String → Except String PyValue

/-! ## gemini_client.py -/

/-- gemini_client._strip_code_fences: remove ```json ... ``` or
``` ... ``` fences if the model wraps JSON. -/
def strip_code_fences (s : String) : String :=
  let cs := stripL s.data
  let cs :=
    if isPrefixL ("```".data) cs then
      -- remove first fence line
      let cs :=
        match cs.findIdx? (fun c => c = '\n') with
        | some i => cs.drop (i + 1)
        | Option.none => cs
      -- remove trailing fence
      let r := rstripL cs
      if isSuffixL ("```".data) r then stripL (r.take (r.length - 3)) else cs
    else cs
  ⟨stripL cs⟩

/-- The brace/bracket scan of gemini_client._extract_json_object
(lines 70-83), on the characters from the candidate start: pushes
openers; a closer with an empty stack is skipped; otherwise the top is
popped and, when it mismatches the closer, the scan just continues;
a matched pop that empties the stack returns the current offset
(relative to the candidate start). -/
def scanEnd : Chars → Nat → List Char → Option Nat
  | [], _, _ => Option.none
  | c :: cs, idx, stack =>
    if c = '{' || c = '[' then scanEnd cs (idx + 1) (c :: stack)
    else if c = '}' || c = ']' then
      match stack with
      | [] => scanEnd cs (idx + 1) []
      | o :: rest =>
        if (o = '{' && c ≠ '}') || (o = '[' && c ≠ ']') then
          -- mismatched, ignore
          scanEnd cs (idx + 1) rest
        else if rest.isEmpty then some idx
        else scanEnd cs (idx + 1) rest
    else scanEnd cs (idx + 1) stack

/-- gemini_client._extract_json_object: best-effort extraction of the
first JSON object/array from a string. -/
def extract_json_object (s : String) : String :=
  let s := strip_code_fences s
  let cs := s.data
  if cs.isEmpty then ""
  else if (cs.head? = some '{' && cs.getLast? = some '}')
       || (cs.head? = some '[' && cs.getLast? = some ']') then s
  else
    let objStart := cs.findIdx? (fun c => c = '{')
    let arrStart := cs.findIdx? (fun c => c = '[')
    let start? : Option Nat :=
      match objStart, arrStart with
      | Option.none, Option.none => Option.none
      | some i, Option.none => some i
      | Option.none, some j => some j
      | some i, some j => some (min i j)
    match start? with
    | Option.none => s  -- nothing to extract
    | some start =>
      match scanEnd (cs.drop start) 0 [] with
      | some e => ⟨stripL ((cs.drop start).take (e + 1))⟩
      | Option.none => ⟨stripL (cs.drop start)⟩  -- fallback

/-- gemini_client._safe_json_load: never crash on invalid/empty JSON;
returns an error/raw_text mapping on failure. -/
def safe_json_load (loads : JsonLoads) (txt : String) : PyValue :=
  let raw := pyStrip txt
  if raw = "" then
    .dict [("error", .str ("Empty response from Gemini (no JSON returned).")),
           ("raw_text", .str (""))]
  else
    let candidate := extract_json_object raw
    match loads candidate with
    | .ok parsed =>
      -- ensure dict output for downstream code
      if parsed.isDict then parsed else .dict [("data", parsed)]
    | .error e =>
      .dict [("error", .str ("Invalid JSON from Gemini: " ++ e)),
             ("raw_text", .str (takeStr raw 4000))]

/-- gemini_client.generate_text: returns `(resp.text or "").strip()`;
a transport failure propagates. -/
def generate_text (env : GenEnv) (system user : String) (temperature : ℚ) :
    Except String String :=
  (env.genTextRaw system user temperature).map pyStrip

/-- gemini_client.generate_json: the raw service text is stripped and
passed through safe_json_load; a transport failure propagates. -/
def generate_json (env : GenEnv) (loads : JsonLoads) (system user : String)
    (temperature : ℚ) : Except String PyValue :=
  (env.genJsonRaw system user temperature).map
    (fun t => safe_json_load loads (pyStrip t))

/-! ## prompts.py (constants; braces rendered as \x7b/\x7d) -/

def CLASSIFIER_SYSTEM : String :=
  "You are an intent router for a chat assistant.\n\nClassify the user's message into exactly one route:\n- SOCIAL: greetings, small-talk, casual chat, check-ins\n- QA: factual or explanatory questions\n- TASK: the user wants you to do something (plan, draft, write, solve)\n- TECH: coding, debugging, data, engineering, tooling\n- CREATIVE: stories, poems, ideas, creative writing\n\nReturn ONLY valid JSON:\n\x7b\n  \"route\": \"SOCIAL|QA|TASK|TECH|CREATIVE\",\n  \"confidence\": 0.0,\n  \"reason\": \"short\"\n\x7d\n"

def CRITIQUE_SYSTEM : String :=
  "You are a strict prompt reviewer.\n\nEvaluate the given prompt using the rubric and return ONLY valid JSON.\n\nRubric (0-5 each):\n- intent: preserves the user's intent\n- clarity: unambiguous and specific\n- structure: requests suitable format (bullets/steps/table/code-block) if needed\n- safety: avoids risky/incorrect instructions; encourages uncertainty when info is missing\n\nReturn JSON exactly like:\n\x7b\n  \"scores\": \x7b\"intent\": 0, \"clarity\": 0, \"structure\": 0, \"safety\": 0\x7d,\n  \"weakest\": \"intent|clarity|structure|safety\",\n  \"edit\": \"ONE concrete edit suggestion (single sentence)\",\n  \"reason\": \"ONE sentence justification\"\n\x7d\n"

def REWRITE_SYSTEM_FULL : String :=
  "You are a prompt rewriter.\n\nRewrite the user's input into a clear, structured instruction for an LLM.\n\nHard rules:\n- Preserve the user's intent EXACTLY. Do NOT add new requirements, tasks, or facts.\n- If the user message is purely SOCIAL (greeting/small-talk), return it unchanged.\n- Do NOT \"helpfully\" invent context.\n- Keep slang/vibe when the user is casual.\n- Add structure only when helpful (bullets/steps/table/code-block).\n- Keep concise (<= 120 tokens).\n- If critical info is missing for a task, add a short 'Assumptions/Questions' line requesting the minimum needed info.\n\nReturn ONLY the rewritten instruction/text."

def REWRITE_SYSTEM_LIGHT : String :=
  "You are a minimal prompt editor.\n\nOnly fix obvious ambiguity/grammar while preserving intent and tone.\n\nRules:\n- Preserve intent and tone.\n- If the message is SOCIAL (greeting/small-talk), return it unchanged.\n- Do not add tasks or extra requirements.\n- Keep output <= 80 tokens.\n\nReturn ONLY the revised text."

def REVISE_SYSTEM : String :=
  "You revise prompts based on the critic's feedback.\n\nRules:\n- Preserve the user's original intent.\n- If the message is SOCIAL, return it unchanged.\n- Apply ONLY the suggested edit (do not introduce extra changes).\n- Keep <= 120 tokens.\n\nReturn ONLY the revised prompt."

/-! ## intent_classifier.py

The module's regular expressions are embedded as explicit token
patterns.  A pattern is a sequence of literal runs, whitespace gaps
(`\s+` / `\s*`) and single digits (`\d`); every alternative of every
source pattern starts and ends with a word character, so the `\b`
anchors reduce to the word-character tests used below.  All searches
are case-insensitive (`re.IGNORECASE`): inputs are lowered first and
the literals are written in lowercase.  `\w` and `\d` are modelled on
the ASCII range. -/

inductive RTok
  | lit (cs : Chars)
  | ws1
  | ws0
  | digit

def litT (s : String) : RTok := .lit s.data

/-- Match a token sequence at the head of the input, returning the rest.
Whitespace gaps are deterministic here because in every source pattern
the gap is followed by a non-whitespace literal or digit. -/
def matchToks : List RTok → Chars → Option Chars
  | [], cs => some cs
  | .lit l :: ts, cs =>
    if isPrefixL l cs then matchToks ts (cs.drop l.length) else Option.none
  | .ws1 :: ts, cs =>
    match cs with
    | c :: r => if pyWsChar c then matchToks ts (r.dropWhile pyWsChar) else Option.none
    | [] => Option.none
  | .ws0 :: ts, cs => matchToks ts (cs.dropWhile pyWsChar)
  | .digit :: ts, cs =>
    match cs with
    | c :: r => if c.isDigit then matchToks ts r else Option.none
    | [] => Option.none

/-- Python regex `\w` (ASCII range). -/
def wordChar (c : Char) : Bool := c.isAlphanum || c = '_'

/-- A `\b` just after a pattern whose last element is a word character:
the next character must be absent or a non-word character. -/
def endBoundary : Chars → Bool
  | [] => true
  | c :: _ => !wordChar c

/-- One position of a `re.search` for `\b(alt|...)\b`: the previous
character (if any) must be a non-word character, then some alternative
must match with a trailing boundary. -/
def patsAt (pats : List (List RTok)) (prev : Option Char) (cs : Chars) : Bool :=
  (match prev with
   | Option.none => true
   | some p => !wordChar p)
  && pats.any (fun pat =>
      match matchToks pat cs with
      | some rest => endBoundary rest
      | Option.none => false)

/-- `re.search` over all start positions. -/
def searchFrom (pats : List (List RTok)) (prev : Option Char) : Chars → Bool
  | [] => patsAt pats prev []
  | c :: cs => patsAt pats prev (c :: cs) || searchFrom pats (some c) cs

def searchPats (pats : List (List RTok)) (t : String) : Bool :=
  searchFrom pats Option.none (t.data.map Char.toLower)

/-- Alternatives of `_SOCIAL_PAT`'s greeting group. -/
def socialAlts : List (List RTok) :=
  [[litT ("hi")], [litT ("hey")], [litT ("hello")], [litT ("yo")],
   [litT ("hii")], [litT ("hiii")], [litT ("sup")],
   [litT ("what's up")], [litT ("whats up")],
   [litT ("good"), .ws1, litT ("morning")],
   [litT ("good"), .ws1, litT ("afternoon")],
   [litT ("good"), .ws1, litT ("evening")],
   [litT ("how"), .ws1, litT ("are"), .ws1, litT ("you")]]

/-- Tail admissible for `.*$` without DOTALL/MULTILINE: no newline,
except possibly a single trailing one. -/
def tailNoNewline (rest : Chars) : Bool :=
  let r := match rest.getLast? with
           | some '\n' => rest.dropLast
           | _ => rest
  !(r.contains '\n')

/-- `_SOCIAL_PAT.match(t)`: `^(\s*(greeting...)\b.*)$`, IGNORECASE.
The leading `\s*` must consume the whole whitespace run because every
greeting starts with a non-whitespace character. -/
def socialMatch (t : String) : Bool :=
  let cs := (t.data.map Char.toLower).dropWhile pyWsChar
  socialAlts.any (fun alt =>
    match matchToks alt cs with
    | some rest => endBoundary rest && tailNoNewline rest
    | Option.none => false)

/-- Alternatives of `_TECH_HINTS`. -/
def techPats : List (List RTok) :=
  [[litT ("traceback")], [litT ("stack"), .ws0, litT ("trace")],
   [litT ("exception")], [litT ("error")], [litT ("bug")], [litT ("debug")],
   [litT ("python")], [litT ("java")], [litT ("javascript")],
   [litT ("typescript")], [litT ("sql")], [litT ("select")], [litT ("join")],
   [litT ("power"), .ws0, litT ("bi")], [litT ("dax")],
   [litT ("m"), .ws0, litT ("code")], [litT ("streamlit")], [litT ("pip")],
   [litT ("conda")], [litT ("npm")], [litT ("git")], [litT ("docker")],
   [litT ("api")], [litT ("http"), .ws0, .digit, .digit, .digit],
   [litT ("json")], [litT ("yaml")]]

/-- Alternatives of `_TASK_VERBS`. -/
def taskPats : List (List RTok) :=
  [[litT ("draft")], [litT ("write")], [litT ("create")], [litT ("make")],
   [litT ("build")], [litT ("generate")], [litT ("design")], [litT ("plan")],
   [litT ("summarize")], [litT ("summarise")], [litT ("compare")],
   [litT ("review")], [litT ("fix")], [litT ("refactor")],
   [litT ("implement")], [litT ("convert")], [litT ("translate")],
   [litT ("explain"), .ws1, litT ("step"), .ws1, litT ("by"), .ws1, litT ("step")]]

/-- Alternatives of `_CREATIVE_HINTS`. -/
def creativePats : List (List RTok) :=
  [[litT ("story")], [litT ("poem")], [litT ("rap")], [litT ("lyrics")],
   [litT ("fantasy")], [litT ("character")], [litT ("plot")],
   [litT ("brainstorm")], [litT ("ideas")], [litT ("creative")]]

/-- Alternatives of the wh-word search in `_rule_route`. -/
def whPats : List (List RTok) :=
  [[litT ("what")], [litT ("why")], [litT ("how")], [litT ("when")],
   [litT ("where")], [litT ("which")], [litT ("who")]]

inductive Route
  | SOCIAL
  | QA
  | TASK
  | TECH
  | CREATIVE
deriving DecidableEq, Repr

def routeName : Route → String
  | .SOCIAL => "SOCIAL"
  | .QA => "QA"
  | .TASK => "TASK"
  | .TECH => "TECH"
  | .CREATIVE => "CREATIVE"

structure IntentResult where
  route : Route
  confidence : ℚ
  reason : String
deriving DecidableEq, Repr

/-- intent_classifier._clamp01: `float(x)` (default on failure or NaN),
then `max(0.0, min(1.0, v))`; the infinities clamp to the bounds. -/
def clamp01 (x : PyValue) (dflt : ℚ) : ℚ :=
  match pyToFloat x with
  | Option.none => dflt
  | some .nan => dflt
  | some (.inf false) => 1
  | some (.inf true) => 0
  | some (.num v) => max 0 (min 1 v)

/-- intent_classifier._normalize_route: `str(x).strip().upper()` must be
one of the five route names, otherwise QA. -/
def normalize_route (x : PyValue) : Route :=
  let s : String := ⟨(stripL (pyStr x).data).map Char.toUpper⟩
  if s = "SOCIAL" then .SOCIAL
  else if s = "QA" then .QA
  else if s = "TASK" then .TASK
  else if s = "TECH" then .TECH
  else if s = "CREATIVE" then .CREATIVE
  else .QA

/-- intent_classifier._rule_route: the deterministic stage. -/
def rule_route (text : String) : Option IntentResult :=
  let t := pyStrip text
  if t = "" then some ⟨.SOCIAL, 0.6, "empty/blank"⟩
  else if t.data.length ≤ 12 && socialMatch t then
    some ⟨.SOCIAL, 0.95, "short greeting"⟩
  else if socialMatch t && wordsCount t.data false ≤ 8 then
    some ⟨.SOCIAL, 0.9, "greeting/small-talk"⟩
  else if searchPats techPats t then some ⟨.TECH, 0.85, "tech keywords"⟩
  else if searchPats creativePats t then some ⟨.CREATIVE, 0.75, "creative keywords"⟩
  else if searchPats taskPats t then some ⟨.TASK, 0.7, "task verb"⟩
  else if t.data.contains '?' || searchPats whPats t then
    some ⟨.QA, 0.65, "question form"⟩
  else Option.none

/-- The handling of a recovered fallback value in classify_intent
(intent_classifier.py lines 112-119), factored out for reference. -/
def fallback_intent (data : PyValue) : IntentResult :=
  if !data.isDict then ⟨.QA, 0.3, "llm returned non-dict"⟩
  else
    let route := normalize_route (dictGet data "route" (.str ("QA")))
    let conf := clamp01 (dictGet data "confidence" (.float (.num (1 / 2)))) (1 / 2)
    let rv := dictGet data "reason" (.str (""))
    let reason := if pyTruthy rv then pyStr rv else "llm classified"
    ⟨route, conf, reason⟩

/-- intent_classifier.classify_intent: rules first, then the hardened
LLM fallback.  An exception from the service call is caught and mapped
to QA/0.3 with a reason built from the exception's name. -/
def classify_intent (env : GenEnv) (loads : JsonLoads) (text : String)
    (allow_llm : Bool) : IntentResult :=
  match rule_route text with
  | some r => r
  | Option.none =>
    if !allow_llm then ⟨.QA, 0.4, "default QA (no llm)"⟩
    else
      match generate_json env loads CLASSIFIER_SYSTEM
          ("User message:\n" ++ text ++ "\n") 0 with
      | .error e => ⟨.QA, 0.3, "llm classify failed: " ++ e⟩
      | .ok data => fallback_intent data

/-- intent_classifier.choose_temperature. -/
def choose_temperature : Route → ℚ
  | .SOCIAL => 0.8
  | .CREATIVE => 1
  | .QA => 0.2
  | .TECH => 0.1
  | .TASK => 0.35

/-- The per-route base thresholds of choose_rewrite_threshold. -/
def base_by_route : Route → ℤ
  | .SOCIAL => 20
  | .QA => 13
  | .TASK => 15
  | .TECH => 14
  | .CREATIVE => 11

/-- intent_classifier.choose_rewrite_threshold. -/
def choose_rewrite_threshold (intent : IntentResult) : ℤ :=
  let conf := clamp01 (.float (.num intent.confidence)) (1 / 2)
  let thr := pyRound ((base_by_route intent.route : ℚ) * conf + 9 * (1 - conf))
  max 4 (min 20 thr)

/-! ## rewriter.py -/

structure CritiqueResult where
  scores : List (String × ℤ)
  weakest : String
  edit : String
  reason : String
deriving DecidableEq, Repr

/-- rewriter._safe_int: `int(x)` with a default on failure. -/
def safe_int (x : PyValue) (dflt : ℤ) : ℤ := (pyToInt x).getD dflt

def default_edit : String :=
  "Make the prompt clearer and better structured while preserving intent."

/-- The fallback schema substituted when no scores were recovered. -/
def default_schema : List (String × ℤ) :=
  [("clarity", 0), ("specificity", 0), ("constraints", 0), ("context", 0),
   ("format", 0)]

/-- Python `min(scores, key=scores.get)`: the first key attaining the
minimal value, in insertion order. -/
def argminKey : List (String × ℤ) → String
  | [] => ""
  | kv :: rest => (rest.foldl (fun best x => if x.2 < best.2 then x else best) kv).1

/-- rewriter._normalize_critique: accepts whatever the model returned
and builds a CritiqueResult with safe defaults.  In this model every
key of a recovered mapping is a string, so the `isinstance(k, str)`
filter keeps every item; a non-string `weakest`/`edit`/`reason` is
collapsed to `""` exactly as the source's isinstance checks do. -/
def normalize_critique (data : PyValue) : CritiqueResult :=
  let data := if data.isDict then data else .dict []
  let raw_scores := dictGet data "scores" (.dict [])
  let raw_scores := if raw_scores.isDict then raw_scores else .dict []
  -- normalize score values to ints
  let scores := (dictItems raw_scores).map (fun kv => (kv.1, safe_int kv.2 0))
  -- if scores missing, give a sane default schema
  let scores := if scores.isEmpty then default_schema else scores
  let weakest :=
    match dictGet data "weakest" (.str ("")) with
    | .str s => s
    | _ => ""
  let edit0 :=
    match dictGet data "edit" (.str ("")) with
    | .str s => s
    | _ => ""
  let edit := if pyStrip edit0 = "" then default_edit else edit0
  let reason :=
    match dictGet data "reason" (.str ("")) with
    | .str s => s
    | _ => ""
  -- if weakest missing, infer from scores (lowest dimension)
  let weakest :=
    if pyStrip weakest = "" && !scores.isEmpty then argminKey scores else weakest
  ⟨scores, pyStrip weakest, pyStrip edit, pyStrip reason⟩

/-- rewriter.critique_prompt. -/
def critique_prompt (env : GenEnv) (loads : JsonLoads) (prompt : String) :
    Except String CritiqueResult :=
  (generate_json env loads CRITIQUE_SYSTEM
      ("Original prompt:\n" ++ prompt ++ "\n") 0).map normalize_critique

/-- rewriter.rewrite_once: apply the critic's edit via REVISE_SYSTEM.
The guard replaces an edit mentioning "json" (or an empty edit) by the
generic instruction. -/
def rewrite_once (env : GenEnv) (original_prompt : String)
    (critique : CritiqueResult) : Except String String :=
  let edit :=
    if containsSubL ("json".data) (critique.edit.data.map Char.toLower) then
      default_edit
    else if critique.edit = "" then default_edit
    else critique.edit
  generate_text env REVISE_SYSTEM
    ("Original prompt:\n" ++ original_prompt ++ "\n\nCritic suggestion:\n"
      ++ edit ++ "\n") 0.2

/-- rewriter.rewrite_prompt (Option B, conditional editor prompt):
rewrite with explicit SOCIAL passthrough.  The route is computed by the
deterministic-only classifier, which makes no service call. -/
def rewrite_prompt (env : GenEnv) (loads : JsonLoads)
    (original_prompt : String) (mode : String) : Except String String :=
  let route := (classify_intent env loads original_prompt false).route
  if route = .SOCIAL then .ok (pyStrip original_prompt)
  else
    (generate_text env
      (if mode = "full" then REWRITE_SYSTEM_FULL else REWRITE_SYSTEM_LIGHT)
      original_prompt 0.2).map pyStrip

/-- One element of the self-refine trace. -/
structure RoundRec where
  round : Nat
  prompt : String
  scores : List (String × ℤ)
  total : ℤ
  weakest : String
  edit : String
  reason : String
deriving DecidableEq, Repr

/-- Python `sum(scores.values())` (the `or` fallback in the source is a
no-op because normalized scores are never empty). -/
def sumScores (l : List (String × ℤ)) : ℤ := (l.map Prod.snd).sum

/-- The body of rewriter.self_refine_rewrite's `for i in range(...)`
loop, recursing on the remaining round budget; `i` is the number of
completed rounds.  A transport failure inside a round propagates. -/
def refineLoop (env : GenEnv) (loads : JsonLoads) (rewrite_threshold : ℤ)
    (mode : String) :
    Nat → Nat → String → List RoundRec → Except String (String × List RoundRec)
  | 0, _, current, trace => .ok (current, trace)
  | Nat.succ fuel, i, current, trace =>
    match critique_prompt env loads current with
    | .error e => .error e
    | .ok crit =>
      let total := sumScores crit.scores
      let trace := trace ++
        [⟨i + 1, current, crit.scores, total, crit.weakest, crit.edit,
          crit.reason⟩]
      if rewrite_threshold ≤ total then .ok (current, trace)
      else
        match rewrite_prompt env loads current mode with
        | .error e => .error e
        | .ok candidate =>
          match rewrite_once env candidate crit with
          | .error e => .error e
          | .ok next =>
            refineLoop env loads rewrite_threshold mode fuel (i + 1)
              (pyStrip next) trace

/-- rewriter.self_refine_rewrite. -/
def self_refine_rewrite (env : GenEnv) (loads : JsonLoads)
    (original_prompt : String) (rewrite_threshold : ℤ) (max_rounds : Nat)
    (mode : String) : Except String (String × List RoundRec) :=
  refineLoop env loads rewrite_threshold mode max_rounds 0
    (pyStrip original_prompt) []

/-! ## judge.py (heuristic judge) -/

/-- One axis block of the heuristic judge.  The `struct` field models
the "structure" axis (`structure` is a Lean keyword). -/
structure HeurScores where
  intent : ℤ
  clarity : ℤ
  struct : ℤ
  safety : ℤ
  notes : String
deriving DecidableEq, Repr

/-- judge.total_score: the `int(...)` coercions are identities because
the heuristic blocks hold integers. -/
def total_score (block : HeurScores) : ℤ :=
  block.intent + block.clarity + block.struct + block.safety

/-- judge._clamp_1_5. -/
def clamp_1_5 (x : ℚ) : ℤ := max 1 (min 5 (pyRound x))

/-- One position of `_BULLET_RE`: after `(^|\n)` comes `\s*`, then
`[-*]` or `\d+\.`, then `\s+` (at least one whitespace character). -/
def bulletAt (cs : Chars) : Bool :=
  let cs := cs.dropWhile pyWsChar
  match cs with
  | '-' :: rest =>
    match rest with
    | c :: _ => pyWsChar c
    | [] => false
  | '*' :: rest =>
    match rest with
    | c :: _ => pyWsChar c
    | [] => false
  | c :: rest =>
    if c.isDigit then
      match rest.dropWhile Char.isDigit with
      | '.' :: r2 =>
        match r2 with
        | d :: _ => pyWsChar d
        | [] => false
      | _ => false
    else false
  | [] => false

/-- `_BULLET_RE.search`: a match at the start or right after a newline. -/
def bulletSearch (cs : Chars) : Bool :=
  bulletAt cs || bulletScanTail cs
where
  bulletScanTail : Chars → Bool
    | [] => false
    | c :: rest => (c = '\n' && bulletAt rest) || bulletScanTail rest

/-- Alternatives of the hedging-language pattern in
`_heuristic_response_scores` (`trade-?off` unfolded into its two
concrete forms). -/
def limitPats : List (List RTok) :=
  [[litT ("depends")], [litT ("cannot")], [litT ("limitation")],
   [litT ("at night")], [litT ("lighting")],
   [litT ("trade-off")], [litT ("tradeoff")]]

/-- Maximal alphabetic runs of length >= 4, i.e. Python
`re.findall(r"[A-Za-z]{4,}", s)` (greedy, non-overlapping). -/
def alphaRuns (cur : Chars) : Chars → List Chars
  | [] => if 4 ≤ cur.length then [cur.reverse] else []
  | c :: cs =>
    if c.isAlpha then alphaRuns (c :: cur) cs
    else (if 4 ≤ cur.length then [cur.reverse] else []) ++ alphaRuns [] cs

/-- judge._heuristic_response_scores. -/
def heuristic_response_scores (query resp : String) : HeurScores :=
  let r := pyStrip resp
  let q := pyStrip query
  let rc := r.data
  let n_words := wordsCount rc false
  let has_steps := bulletSearch rc
  let has_question_back := rc.contains '?'
  let mentions_limitations := searchPats limitPats r
  let rLower := rc.map Char.toLower
  let addresses_query_terms :=
    ((alphaRuns [] (q.data.map Char.toLower)).dedup).countP
      (fun term => containsSubL term rLower)
  -- intent: some overlap + not empty
  let intent : ℚ := 5 / 2 + (if 2 ≤ addresses_query_terms then 1 else 0)
    + (if 25 ≤ n_words then 1 else 0)
  -- clarity: shorter than huge wall + has some punctuation
  let clarity : ℚ := 5 / 2 + (if rc.contains '.' then 1 / 2 else 0)
    + (if n_words ≤ 250 then 1 / 2 else -(1 / 2))
  -- structure: bullets/steps or short paragraphs
  let structureScore : ℚ := 2
    + (if has_steps then 1 else if n_words ≤ 120 then 1 / 2 else 0)
  -- safety: neutral baseline; reward hedging when appropriate
  let safety : ℚ := 9 / 2
    + (if mentions_limitations || has_question_back then 1 / 2 else 0)
  ⟨clamp_1_5 intent, clamp_1_5 clarity, clamp_1_5 structureScore,
   clamp_1_5 safety,
   "Heuristic scores based on overlap, length, and structure signals."⟩

/-- The stable JSON shape shared by both judges. -/
structure JudgeVerdict where
  X : HeurScores
  Y : HeurScores
  winner : String
  reason : String
  judge_type : String
deriving DecidableEq, Repr

/-- judge.heuristic_judge_pair: deterministic judge for (X, Y)
responses.  The judge module holds the ambient generation-service
handle (judge.py imports gemini_client), so the environment is passed
explicitly here; the heuristic judge never consults it. -/
def heuristic_judge_pair (env : GenEnv) (query resp_x resp_y : String) :
    JudgeVerdict :=
  let X := heuristic_response_scores query resp_x
  let Y := heuristic_response_scores query resp_y
  let sx := total_score X
  let sy := total_score Y
  if |sx - sy| ≤ 1 then
    ⟨X, Y, "tie", "Scores are very close under heuristic signals.", "heuristic"⟩
  else if sy < sx then
    ⟨X, Y, "X", "X scores higher on heuristic overlap/structure signals.",
     "heuristic"⟩
  else
    ⟨X, Y, "Y", "Y scores higher on heuristic overlap/structure signals.",
     "heuristic"⟩

/-! ## Reference variants of the recovery scan (for claim C8)

`claimScanEnd` is written from the spec claim's words; `amendedScanEnd`
is written from the amended description.  Both reuse the wrapper of
`extract_json_object` unchanged. -/

/-- Modelled from the spec claim: a closing delimiter that does not
match the top of the open-delimiter stack is treated as a stray
character with no effect on the scan state; the candidate ends when
the stack empties. -/
def claimScanEnd : Chars → Nat → List Char → Option Nat
  | [], _, _ => Option.none
  | c :: cs, idx, stack =>
    if c = '{' || c = '[' then claimScanEnd cs (idx + 1) (c :: stack)
    else if c = '}' || c = ']' then
      match stack with
      | [] => claimScanEnd cs (idx + 1) []
      | o :: rest =>
        if (o = '{' && c ≠ '}') || (o = '[' && c ≠ ']') then
          claimScanEnd cs (idx + 1) (o :: rest)
        else if rest.isEmpty then some idx
        else claimScanEnd cs (idx + 1) rest
    else claimScanEnd cs (idx + 1) stack

/-- `extract_json_object` with the claim's scan in place of the code's. -/
def claim_extract_json_object (s : String) : String :=
  let s := strip_code_fences s
  let cs := s.data
  if cs.isEmpty then ""
  else if (cs.head? = some '{' && cs.getLast? = some '}')
       || (cs.head? = some '[' && cs.getLast? = some ']') then s
  else
    let objStart := cs.findIdx? (fun c => c = '{')
    let arrStart := cs.findIdx? (fun c => c = '[')
    let start? : Option Nat :=
      match objStart, arrStart with
      | Option.none, Option.none => Option.none
      | some i, Option.none => some i
      | Option.none, some j => some j
      | some i, some j => some (min i j)
    match start? with
    | Option.none => s
    | some start =>
      match claimScanEnd (cs.drop start) 0 [] with
      | some e => ⟨stripL ((cs.drop start).take (e + 1))⟩
      | Option.none => ⟨stripL (cs.drop start)⟩

/-- Whether closer `c` matches opener `o`. -/
def closesTop (o c : Char) : Bool := (o = '{' && c = '}') || (o = '[' && c = ']')

/-- The amended scan policy: a mismatched closing delimiter does not
abort the scan — it pops the unmatched top and continues without
returning at that character (even when the pop empties the stack); the
candidate end is reported exactly when a matched closing delimiter
empties the stack. -/
def amendedScanEnd : Chars → Nat → List Char → Option Nat
  | [], _, _ => Option.none
  | c :: cs, idx, stack =>
    if c = '{' || c = '[' then amendedScanEnd cs (idx + 1) (c :: stack)
    else if c = '}' || c = ']' then
      match stack with
      | [] => amendedScanEnd cs (idx + 1) []
      | o :: rest =>
        if closesTop o c then
          if rest.isEmpty then some idx else amendedScanEnd cs (idx + 1) rest
        else amendedScanEnd cs (idx + 1) rest
    else amendedScanEnd cs (idx + 1) stack

/-- `extract_json_object` with the amended scan in place of the code's. -/
def amended_extract_json_object (s : String) : String :=
  let s := strip_code_fences s
  let cs := s.data
  if cs.isEmpty then ""
  else if (cs.head? = some '{' && cs.getLast? = some '}')
       || (cs.head? = some '[' && cs.getLast? = some ']') then s
  else
    let objStart := cs.findIdx? (fun c => c = '{')
    let arrStart := cs.findIdx? (fun c => c = '[')
    let start? : Option Nat :=
      match objStart, arrStart with
      | Option.none, Option.none => Option.none
      | some i, Option.none => some i
      | Option.none, some j => some j
      | some i, some j => some (min i j)
    match start? with
    | Option.none => s
    | some start =>
      match amendedScanEnd (cs.drop start) 0 [] with
      | some e => ⟨stripL ((cs.drop start).take (e + 1))⟩
      | Option.none => ⟨stripL (cs.drop start)⟩

/-! ## Concrete fixtures used by witnesses and counterexamples -/

/-- A `json.loads` that rejects every candidate. -/
def loadsNo : JsonLoads := fun _ => .error "invalid"

/-- A `json.loads` accepting exactly the array candidate `[1, 2]`. -/
def loadsList : JsonLoads := fun s =>
  if s = "[1, 2]" then .ok (.list [.int 1, .int 2]) else .error "bad"

/-- A service whose text endpoint answers "CHANGED" and whose JSON
endpoint answers an empty body. -/
def envText : GenEnv := ⟨fun _ _ _ => .ok "CHANGED", fun _ _ _ => .ok "",⟩

/-- A service answering empty bodies on both endpoints. -/
def envBlank : GenEnv := ⟨fun _ _ _ => .ok "", fun _ _ _ => .ok "",⟩

/-- A service whose JSON endpoint raises `Boom`. -/
def envBoom : GenEnv := ⟨fun _ _ _ => .ok "", fun _ _ _ => .error "Boom",⟩

/-- A service whose JSON endpoint returns an array wrapped in prose. -/
def envArr : GenEnv := ⟨fun _ _ _ => .ok "", fun _ _ _ => .ok "x [1, 2] tail",⟩

/-! ## Helper lemmas -/

theorem rstripL_prefix (l : Chars) : rstripL l <+: l :=
  List.rdropWhile_prefix pyWsChar l

theorem lstripL_rstripL_lstripL (l : Chars) :
    lstripL (rstripL (lstripL l)) = rstripL (lstripL l) := by
  rcases e : rstripL (lstripL l) with _ | ⟨a, u⟩
  · rfl
  · have hpref : rstripL (lstripL l) <+: lstripL l := rstripL_prefix _
    rw [e] at hpref
    obtain ⟨t, ht⟩ := hpref
    have hlm : List.dropWhile pyWsChar l = a :: (u ++ t) := by
      rw [show List.dropWhile pyWsChar l = lstripL l from rfl, ← ht]
      simp
    have h0 : 0 < (List.dropWhile pyWsChar l).length := by rw [hlm]; simp
    have hget := List.dropWhile_get_zero_not pyWsChar l h0
    have hgeta : (List.dropWhile pyWsChar l).get ⟨0, h0⟩ = a := by
      simp [hlm]
    rw [hgeta] at hget
    show List.dropWhile pyWsChar (a :: u) = a :: u
    exact List.dropWhile_cons_of_neg hget

theorem rstripL_idem (l : Chars) : rstripL (rstripL l) = rstripL l :=
  List.rdropWhile_idempotent pyWsChar l

theorem stripL_idem (l : Chars) : stripL (stripL l) = stripL l := by
  show rstripL (lstripL (rstripL (lstripL l))) = rstripL (lstripL l)
  rw [lstripL_rstripL_lstripL]
  exact rstripL_idem _

theorem pyStrip_idem (s : String) : pyStrip (pyStrip s) = pyStrip s := by
  show (⟨stripL (stripL s.data)⟩ : String) = ⟨stripL s.data⟩
  rw [stripL_idem]

theorem takeStr_length_le (s : String) (n : Nat) : (takeStr s n).length ≤ n := by
  show (s.data.take n).length ≤ n
  rw [List.length_take]
  exact Nat.min_le_left n s.data.length

theorem ratFloor_eq_intFloor (q : ℚ) : q.floor = ⌊q⌋ := rfl

theorem pyRound_int (n : ℤ) : pyRound (n : ℚ) = n := by
  unfold pyRound
  rw [ratFloor_eq_intFloor, Int.floor_intCast]
  norm_num

theorem scanEnd_eq_amendedScanEnd (cs : Chars) : ∀ (idx : Nat) (stack : List Char),
    (∀ o ∈ stack, o = '{' ∨ o = '[') →
    scanEnd cs idx stack = amendedScanEnd cs idx stack := by
  induction cs with
  | nil => intro idx stack _; rfl
  | cons c cs ih =>
    intro idx stack h
    simp only [scanEnd, amendedScanEnd]
    by_cases hop : (c = '{' || c = '[') = true
    · rw [if_pos hop, if_pos hop]
      refine ih _ _ ?_
      intro o ho
      rcases List.mem_cons.mp ho with rfl | homem
      · simpa using hop
      · exact h o homem
    · rw [if_neg hop, if_neg hop]
      by_cases hcl : (c = '}' || c = ']') = true
      · rw [if_pos hcl, if_pos hcl]
        cases stack with
        | nil =>
          exact ih _ _ (by intro o ho; exact absurd ho (List.not_mem_nil o))
        | cons o rest =>
          dsimp only
          have hrest : ∀ x ∈ rest, x = '{' ∨ x = '[' :=
            fun x hx => h x (List.mem_cons_of_mem _ hx)
          rcases h o (List.mem_cons_self o rest) with rfl | rfl
          · by_cases hc : c = '}'
            · have hmis : ¬ ((('{' = '{' && c ≠ '}') || ('{' = '[' && c ≠ ']')) = true) := by
                simp [hc]
              have hct : closesTop '{' c = true := by simp [closesTop, hc]
              rw [if_neg hmis, if_pos hct]
              by_cases hre : rest.isEmpty
              · rw [if_pos hre, if_pos hre]
              · rw [if_neg hre, if_neg hre]
                exact ih _ _ hrest
            · have hmis : (('{' = '{' && c ≠ '}') || ('{' = '[' && c ≠ ']')) = true := by
                simp [hc]
              have hct : ¬ (closesTop '{' c = true) := by simp [closesTop, hc]
              rw [if_pos hmis, if_neg hct]
              exact ih _ _ hrest
          · by_cases hc : c = ']'
            · have hmis : ¬ ((('[' = '{' && c ≠ '}') || ('[' = '[' && c ≠ ']')) = true) := by
                simp [hc]
              have hct : closesTop '[' c = true := by simp [closesTop, hc]
              rw [if_neg hmis, if_pos hct]
              by_cases hre : rest.isEmpty
              · rw [if_pos hre, if_pos hre]
              · rw [if_neg hre, if_neg hre]
                exact ih _ _ hrest
            · have hmis : (('[' = '{' && c ≠ '}') || ('[' = '[' && c ≠ ']')) = true := by
                simp [hc]
              have hct : ¬ (closesTop '[' c = true) := by simp [closesTop, hc]
              rw [if_pos hmis, if_neg hct]
              exact ih _ _ hrest
      · rw [if_neg hcl, if_neg hcl]
        exact ih _ _ h

theorem scanEnd_eq_amended_nil (x : Chars) (idx : Nat) :
    scanEnd x idx [] = amendedScanEnd x idx [] :=
  scanEnd_eq_amendedScanEnd x idx []
    (by intro o ho; exact absurd ho (List.not_mem_nil o))

theorem clamp01_le_one (x : PyValue) (d : ℚ) (h0 : 0 ≤ d) (h1 : d ≤ 1) :
    0 ≤ clamp01 x d ∧ clamp01 x d ≤ 1 := by
  unfold clamp01
  cases hf : pyToFloat x with
  | none => exact ⟨h0, h1⟩
  | some f =>
    cases f with
    | nan => exact ⟨h0, h1⟩
    | inf neg => cases neg <;> exact ⟨by norm_num, by norm_num⟩
    | num v =>
      refine ⟨le_max_left 0 _, max_le (by norm_num) (min_le_left 1 v)⟩

theorem clamp01_num_id (q d : ℚ) (h0 : 0 ≤ q) (h1 : q ≤ 1) :
    clamp01 (.float (.num q)) d = q := by
  unfold clamp01
  show max 0 (min 1 q) = q
  rw [min_eq_right h1, max_eq_right h0]

theorem refineLoop_ok_spec (env : GenEnv) (loads : JsonLoads) (thr : ℤ)
    (mode : String) :
    ∀ (fuel i : Nat) (current : String) (trace : List RoundRec)
      (final : String) (t : List RoundRec),
    refineLoop env loads thr mode fuel i current trace = .ok (final, t) →
    ∃ ext : List RoundRec, t = trace ++ ext ∧ ext.length ≤ fuel ∧
      ∀ (j : Nat) (hj : j < ext.length), (ext.get ⟨j, hj⟩).round = i + j + 1 := by
  intro fuel
  induction fuel with
  | zero =>
    intro i current trace final t h
    simp only [refineLoop] at h
    have hpair : current = final ∧ trace = t := by simpa using h
    refine ⟨[], ?_, Nat.le_refl 0, ?_⟩
    · rw [← hpair.2]; simp
    · intro j hj
      exact absurd hj (by simp)
  | succ fuel ih =>
    intro i current trace final t h
    simp only [refineLoop] at h
    cases hc : critique_prompt env loads current with
    | error e => rw [hc] at h; simp at h
    | ok crit =>
      rw [hc] at h
      dsimp only at h
      by_cases hth : thr ≤ sumScores crit.scores
      · rw [if_pos hth] at h
        have hpair : current = final ∧
            trace ++ [⟨i + 1, current, crit.scores, sumScores crit.scores,
              crit.weakest, crit.edit, crit.reason⟩] = t := by
          simpa using h
        refine ⟨[⟨i + 1, current, crit.scores, sumScores crit.scores,
          crit.weakest, crit.edit, crit.reason⟩], hpair.2.symm, by norm_num, ?_⟩
        intro j hj
        cases j with
        | zero => rfl
        | succ j => exact absurd hj (by simp)
      · rw [if_neg hth] at h
        cases hr : rewrite_prompt env loads current mode with
        | error e => rw [hr] at h; simp at h
        | ok candidate =>
          rw [hr] at h
          dsimp only at h
          cases ho : rewrite_once env candidate crit with
          | error e => rw [ho] at h; simp at h
          | ok next =>
            rw [ho] at h
            dsimp only at h
            obtain ⟨ext', hext, hlen, hround⟩ :=
              ih (i + 1) (pyStrip next)
                (trace ++ [⟨i + 1, current, crit.scores, sumScores crit.scores,
                  crit.weakest, crit.edit, crit.reason⟩]) final t h
            refine ⟨⟨i + 1, current, crit.scores, sumScores crit.scores,
              crit.weakest, crit.edit, crit.reason⟩ :: ext', ?_, ?_, ?_⟩
            · rw [hext]; simp
            · simpa using Nat.succ_le_succ hlen
            · intro j hj
              cases j with
              | zero => rfl
              | succ j =>
                have hj' : j < ext'.length := by simpa using hj
                show (ext'.get ⟨j, hj'⟩).round = i + (j + 1) + 1
                rw [hround j hj']
                omega

/-! ## Claim theorems -/

/-- C1: for every `json.loads` behaviour and every input string,
structured-output recovery returns a mapping and never raises: either
the successfully parsed value (itself a mapping, or wrapped under the
single key `data`), or — on unrecoverable input — a mapping containing
only the keys `error` and `raw_text`, where `raw_text` is the stripped
original truncated to at most 4000 code points. -/
theorem safe_json_load_total_shape (loads : JsonLoads) (txt : String) :
    (safe_json_load loads txt).isDict = true ∧
    ((∃ v, loads (extract_json_object (pyStrip txt)) = .ok v ∧
        (safe_json_load loads txt = v ∨
         safe_json_load loads txt = .dict [("data", v)])) ∨
     (∃ e, safe_json_load loads txt =
        .dict [("error", .str e),
               ("raw_text", .str (takeStr (pyStrip txt) 4000))] ∧
        (takeStr (pyStrip txt) 4000).length ≤ 4000)) := by
  simp only [safe_json_load]
  by_cases hraw : pyStrip txt = ""
  · rw [if_pos hraw]
    refine ⟨rfl, Or.inr ⟨"Empty response from Gemini (no JSON returned).",
      ?_, takeStr_length_le _ _⟩⟩
    rw [hraw]
    rfl
  · rw [if_neg hraw]
    cases hl : loads (extract_json_object (pyStrip txt)) with
    | ok v =>
      dsimp only
      by_cases hd : v.isDict = true
      · rw [if_pos hd]
        exact ⟨hd, Or.inl ⟨v, rfl, Or.inl rfl⟩⟩
      · rw [if_neg hd]
        exact ⟨rfl, Or.inl ⟨v, rfl, Or.inr rfl⟩⟩
    | error e =>
      dsimp only
      exact ⟨rfl, Or.inr ⟨"Invalid JSON from Gemini: " ++ e, rfl,
        takeStr_length_le _ _⟩⟩

/-- C2 counterexample: on the SOCIAL prompt "hi", with a critique below
the threshold, the structural rewrite step does pass the text through,
but the apply-one-edit step (`rewrite_once`) calls the reviser
unconditionally, so the loop's final text is whatever the service
returns ("CHANGED" here), not the SOCIAL input — refuting the claim
that every rewrite stage returns SOCIAL text verbatim. -/
theorem social_passthrough_claim_counterexample :
    (classify_intent envText loadsNo "hi" false).route = .SOCIAL ∧
    rewrite_once envText "hi"
      ⟨default_schema, "clarity", default_edit, ""⟩ = .ok "CHANGED" ∧
    self_refine_rewrite envText loadsNo "hi" 15 1 "full" =
      .ok ("CHANGED",
        [⟨1, "hi", default_schema, 0, "clarity", default_edit, ""⟩]) ∧
    ("CHANGED" : String) ≠ "hi" :=
  ⟨rfl, rfl, rfl, by decide⟩

/-- C2 (amended): for every prompt whose deterministic-only
classification is SOCIAL, the structural rewrite step
(`rewrite_prompt`) returns the text verbatim (stripped) without any
service call; the subsequent apply-one-edit step is applied
unconditionally, so the loop's final text is not guaranteed to equal
the SOCIAL input. -/
theorem rewrite_prompt_social_passthrough (env : GenEnv) (loads : JsonLoads)
    (text mode : String)
    (h : (classify_intent env loads text false).route = .SOCIAL) :
    rewrite_prompt env loads text mode = .ok (pyStrip text) := by
  simp only [rewrite_prompt]
  rw [if_pos h]

theorem rewrite_prompt_social_passthrough_witness :
    (classify_intent envBlank loadsNo "hi" false).route = Route.SOCIAL ∧
    rewrite_prompt envBlank loadsNo "hi" "full" = .ok (pyStrip "hi") :=
  ⟨rfl, rewrite_prompt_social_passthrough envBlank loadsNo "hi" "full" rfl⟩

/-- C3 counterexample: a generator score of 100 is recovered by the
Critique Engine unchanged — it is not clamped into the 0-5 rubric
range — and it becomes the total used for the pass/fail decision. -/
theorem critique_clamp_counterexample :
    (normalize_critique
      (.dict [("scores", .dict [("clarity", .int 100)])])).scores
      = [("clarity", 100)] ∧
    sumScores (normalize_critique
      (.dict [("scores", .dict [("clarity", .int 100)])])).scores = 100 ∧
    ¬ ((0 : ℤ) ≤ 100 ∧ (100 : ℤ) ≤ 5) :=
  ⟨rfl, rfl, by decide⟩

/-- C3 (amended): every RubricScore value recovered by the Critique
Engine is the integer coercion (`_safe_int`, default 0) of the
generator's value, with no clamping into the rubric range, and the
total used by the refine loop's pass/fail decision is the sum of these
unclamped coerced values. -/
theorem normalize_critique_coerces_without_clamp
    (kvs : List (String × PyValue)) (h : kvs ≠ []) :
    (normalize_critique (.dict [("scores", .dict kvs)])).scores =
      kvs.map (fun kv => (kv.1, safe_int kv.2 0)) ∧
    sumScores (normalize_critique (.dict [("scores", .dict kvs)])).scores =
      sumScores (kvs.map (fun kv => (kv.1, safe_int kv.2 0))) := by
  cases kvs with
  | nil => exact absurd rfl h
  | cons kv rest => exact ⟨rfl, rfl⟩

theorem normalize_critique_coerces_witness :
    ([("clarity", PyValue.int 100)] ≠ ([] : List (String × PyValue))) ∧
    (normalize_critique
      (.dict [("scores", .dict [("clarity", PyValue.int 100)])])).scores =
      [("clarity", PyValue.int 100)].map (fun kv => (kv.1, safe_int kv.2 0)) :=
  ⟨List.cons_ne_nil _ _,
   (normalize_critique_coerces_without_clamp _ (List.cons_ne_nil _ _)).1⟩

/-- C4: the self-refine loop always terminates (it is a total function
of the round budget); whenever it returns a result, the trace length
is at most `max_rounds` and the trace's round indices are exactly
1, 2, ... (hence strictly increasing); and with an exhausted budget of
0 rounds the stripped input is returned as the best-effort result, not
an error. -/
theorem self_refine_terminates_bounded :
    (∀ (env : GenEnv) (loads : JsonLoads) (p : String) (thr : ℤ)
       (mode : String) (n : Nat) (final : String) (trace : List RoundRec),
      self_refine_rewrite env loads p thr n mode = .ok (final, trace) →
      trace.length ≤ n ∧
      ∀ (j : Nat) (hj : j < trace.length), (trace.get ⟨j, hj⟩).round = j + 1) ∧
    (∀ (env : GenEnv) (loads : JsonLoads) (p : String) (thr : ℤ)
       (mode : String),
      self_refine_rewrite env loads p thr 0 mode = .ok (pyStrip p, [])) := by
  constructor
  · intro env loads p thr mode n final trace h
    obtain ⟨ext, hext, hlen, hround⟩ :=
      refineLoop_ok_spec env loads thr mode n 0 (pyStrip p) [] final trace h
    have hte : trace = ext := by simpa using hext
    subst hte
    exact ⟨hlen, fun j hj => by simpa using hround j hj⟩
  · intro env loads p thr mode
    rfl

theorem self_refine_terminates_bounded_witness :
    self_refine_rewrite envBlank loadsNo "hi" 15 1 "full" =
      .ok ("", [⟨1, "hi", default_schema, 0, "clarity", default_edit, ""⟩]) ∧
    ([⟨1, "hi", default_schema, 0, "clarity", default_edit, ""⟩] :
      List RoundRec).length ≤ 1 :=
  ⟨rfl, (self_refine_terminates_bounded.1 envBlank loadsNo "hi" 15 "full" 1
    "" _ rfl).1⟩

/-- C5: for every IntentResult with confidence in [0,1], the rewrite
threshold is `round(base[route] * confidence + 9 * (1 - confidence))`
clamped into [4,20] (with Python's half-to-even `round`); with
confidence 1 it reduces to the per-route base clamped into [4,20], and
with confidence 0 it reduces to the floor value 9. -/
theorem choose_rewrite_threshold_formula (r : Route) (q : ℚ) (s : String)
    (h0 : 0 ≤ q) (h1 : q ≤ 1) :
    choose_rewrite_threshold ⟨r, q, s⟩ =
      max 4 (min 20 (pyRound ((base_by_route r : ℚ) * q + 9 * (1 - q)))) ∧
    (q = 1 → choose_rewrite_threshold ⟨r, q, s⟩ =
      max 4 (min 20 (base_by_route r))) ∧
    (q = 0 → choose_rewrite_threshold ⟨r, q, s⟩ = 9) := by
  have hc : clamp01 (.float (.num q)) (1 / 2) = q := clamp01_num_id q (1 / 2) h0 h1
  refine ⟨?_, ?_, ?_⟩
  · simp only [choose_rewrite_threshold, hc]
  · intro hq
    subst hq
    simp only [choose_rewrite_threshold, hc]
    rw [show ((base_by_route r : ℚ) * 1 + 9 * (1 - 1)) =
        ((base_by_route r : ℤ) : ℚ) by ring]
    rw [pyRound_int]
  · intro hq
    subst hq
    simp only [choose_rewrite_threshold, hc]
    rw [show ((base_by_route r : ℚ) * 0 + 9 * (1 - 0)) = ((9 : ℤ) : ℚ) by
        push_cast; ring]
    rw [pyRound_int]
    decide

theorem choose_rewrite_threshold_formula_witness :
    ((0 : ℚ) ≤ 1 / 2 ∧ (1 / 2 : ℚ) ≤ 1) ∧
    choose_rewrite_threshold ⟨.TASK, 1 / 2, "w"⟩ =
      max 4 (min 20 (pyRound ((base_by_route .TASK : ℚ) * (1 / 2)
        + 9 * (1 - 1 / 2)))) ∧
    choose_rewrite_threshold ⟨.TASK, 1 / 2, "w"⟩ = 12 :=
  ⟨⟨by norm_num, by norm_num⟩,
   (choose_rewrite_threshold_formula .TASK (1 / 2) "w" (by norm_num)
      (by norm_num)).1,
   by with_unfolding_all decide⟩

/-- A route value whose `str(x).strip().upper()` rendering is none of
the five route names is coerced to QA by `_normalize_route`. -/
theorem normalize_route_invalid (v : PyValue)
    (h : ∀ r : Route,
      (⟨(stripL (pyStr v).data).map Char.toUpper⟩ : String) ≠ routeName r) :
    normalize_route v = .QA := by
  simp only [normalize_route]
  split_ifs with e1 e2 e3 e4 e5
  · exact absurd e1 (h .SOCIAL)
  · exact absurd e2 (h .QA)
  · exact absurd e3 (h .TASK)
  · exact absurd e4 (h .TECH)
  · exact absurd e5 (h .CREATIVE)
  · rfl

/-- C6: the generative-fallback classification is hardened: the
confidence of any recovered value is clamped into [0,1] (0.5 when the
value is non-numeric or NaN); a non-mapping recovered value yields QA
with confidence 0.3; an absent route key defaults to QA; a present
route value that does not render (via strip/upper) as one of the five
route names is coerced to QA; and when the fallback service call
raises, classify_intent returns QA with confidence 0.3 and a reason
naming the failure, never propagating the exception.  (The route type
itself is the closed five-route set, so every produced route lies in
it by construction.) -/
theorem classify_fallback_hardened :
    (∀ data : PyValue, 0 ≤ (fallback_intent data).confidence ∧
        (fallback_intent data).confidence ≤ 1) ∧
    (∀ data : PyValue, data.isDict = false →
        fallback_intent data = ⟨.QA, 0.3, "llm returned non-dict"⟩) ∧
    (∀ kvs : List (String × PyValue),
        kvs.find? (fun kv => kv.1 = "route") = Option.none →
        (fallback_intent (.dict kvs)).route = .QA) ∧
    (∀ v : PyValue, pyToFloat v = Option.none ∨ pyToFloat v = some .nan →
        clamp01 v (1 / 2) = 1 / 2) ∧
    (∀ (env : GenEnv) (loads : JsonLoads) (text e : String),
        rule_route text = Option.none →
        env.genJsonRaw CLASSIFIER_SYSTEM
          ("User message:\n" ++ text ++ "\n") 0 = .error e →
        classify_intent env loads text true =
          ⟨.QA, 0.3, "llm classify failed: " ++ e⟩) ∧
    (∀ v : PyValue,
        (∀ r : Route,
          (⟨(stripL (pyStr v).data).map Char.toUpper⟩ : String) ≠ routeName r) →
        normalize_route v = .QA) ∧
    (∀ (kvs : List (String × PyValue)) (kv : String × PyValue),
        kvs.find? (fun p => p.1 = "route") = some kv →
        (∀ r : Route,
          (⟨(stripL (pyStr kv.2).data).map Char.toUpper⟩ : String) ≠ routeName r) →
        (fallback_intent (.dict kvs)).route = .QA) := by
  refine ⟨?_, ?_, ?_, ?_, ?_, ?_, ?_⟩
  · intro data
    cases hD : data.isDict with
    | false =>
      simp only [fallback_intent, hD]
      norm_num
    | true =>
      simp only [fallback_intent, hD]
      exact clamp01_le_one _ (1 / 2) (by norm_num) (by norm_num)
  · intro data h
    simp only [fallback_intent, h]
    rfl
  · intro kvs h
    simp only [fallback_intent, PyValue.isDict, dictGet, h]
    rfl
  · intro v hv
    unfold clamp01
    rcases hv with h | h <;> rw [h]
  · intro env loads text e hrule henv
    simp only [classify_intent, hrule, generate_json, henv, Except.map]
    rfl
  · exact normalize_route_invalid
  · intro kvs kv hfind h
    simp only [fallback_intent, PyValue.isDict, dictGet, hfind]
    exact normalize_route_invalid kv.2 h

theorem classify_fallback_hardened_witness :
    rule_route "zzzz qqqq" = Option.none ∧
    classify_intent envBoom loadsNo "zzzz qqqq" true =
      ⟨.QA, 0.3, "llm classify failed: " ++ "Boom"⟩ ∧
    fallback_intent (.str ("nope")) = ⟨.QA, 0.3, "llm returned non-dict"⟩ ∧
    normalize_route (.str ("BANANA")) = .QA ∧
    (fallback_intent (.dict [("route", .str ("BANANA"))])).route = .QA :=
  ⟨rfl,
   classify_fallback_hardened.2.2.2.2.1 envBoom loadsNo "zzzz qqqq" "Boom"
     rfl rfl,
   classify_fallback_hardened.2.1 (.str ("nope")) rfl,
   classify_fallback_hardened.2.2.2.2.2.1 (.str ("BANANA"))
     (by intro r; cases r <;> decide),
   classify_fallback_hardened.2.2.2.2.2.2 [("route", .str ("BANANA"))]
     ("route", .str ("BANANA")) rfl (by intro r; cases r <;> decide)⟩

/-- C7: the heuristic judge declares "tie" exactly when the totals
differ by at most 1, and otherwise declares the side with the strictly
greater total the winner. -/
theorem heuristic_judge_margin (env : GenEnv) (q x y : String) :
    ((heuristic_judge_pair env q x y).winner = "tie" ↔
      |total_score (heuristic_judge_pair env q x y).X -
        total_score (heuristic_judge_pair env q x y).Y| ≤ 1) ∧
    (1 < total_score (heuristic_judge_pair env q x y).X -
        total_score (heuristic_judge_pair env q x y).Y →
      (heuristic_judge_pair env q x y).winner = "X") ∧
    (1 < total_score (heuristic_judge_pair env q x y).Y -
        total_score (heuristic_judge_pair env q x y).X →
      (heuristic_judge_pair env q x y).winner = "Y") := by
  by_cases h1 : |total_score (heuristic_response_scores q x) -
      total_score (heuristic_response_scores q y)| ≤ 1
  · have hv : heuristic_judge_pair env q x y =
        ⟨heuristic_response_scores q x, heuristic_response_scores q y, "tie",
         "Scores are very close under heuristic signals.", "heuristic"⟩ := by
      simp only [heuristic_judge_pair]
      rw [if_pos h1]
    rw [hv]
    dsimp only
    refine ⟨⟨fun _ => h1, fun _ => rfl⟩, ?_, ?_⟩
    · intro hgt
      exfalso
      have h2 := le_abs_self (total_score (heuristic_response_scores q x) -
        total_score (heuristic_response_scores q y))
      omega
    · intro hgt
      exfalso
      have h2 := le_abs_self (total_score (heuristic_response_scores q y) -
        total_score (heuristic_response_scores q x))
      rw [abs_sub_comm] at h2
      omega
  · by_cases h2 : total_score (heuristic_response_scores q y) <
        total_score (heuristic_response_scores q x)
    · have hv : heuristic_judge_pair env q x y =
          ⟨heuristic_response_scores q x, heuristic_response_scores q y, "X",
           "X scores higher on heuristic overlap/structure signals.",
           "heuristic"⟩ := by
        simp only [heuristic_judge_pair]
        rw [if_neg h1, if_pos h2]
      rw [hv]
      dsimp only
      refine ⟨⟨fun hw => absurd hw (by decide), fun hle => absurd hle h1⟩,
        fun _ => rfl, ?_⟩
      intro hgt
      exfalso
      omega
    · have hv : heuristic_judge_pair env q x y =
          ⟨heuristic_response_scores q x, heuristic_response_scores q y, "Y",
           "Y scores higher on heuristic overlap/structure signals.",
           "heuristic"⟩ := by
        simp only [heuristic_judge_pair]
        rw [if_neg h1, if_neg h2]
      rw [hv]
      dsimp only
      refine ⟨⟨fun hw => absurd hw (by decide), fun hle => absurd hle h1⟩,
        ?_, fun _ => rfl⟩
      intro hgt
      exfalso
      omega

theorem heuristic_judge_margin_witness :
    (1 : ℤ) < total_score (heuristic_judge_pair envBlank "" "" "- a b. ok?").Y -
      total_score (heuristic_judge_pair envBlank "" "" "- a b. ok?").X ∧
    (heuristic_judge_pair envBlank "" "" "- a b. ok?").winner = "Y" :=
  ⟨by with_unfolding_all decide,
   (heuristic_judge_margin envBlank "" "" "- a b. ok?").2.2
     (by with_unfolding_all decide)⟩

/-- C8 counterexample: on input `a{[}}x` (braces escaped in the string
literal) the code's scan pops the unmatched `[` when it meets the first
`}` and therefore returns at the second `}`, yielding the candidate
`{[}}`; a scan that ignored the mismatched closer with no effect on the
scan state would never empty its stack and would fall back to the whole
tail `{[}}x`.  The two differ, refuting the claim's "no effect on the
scan state" description. -/
theorem extract_mismatch_claim_counterexample :
    extract_json_object ("a\x7b[\x7d\x7dx") = "\x7b[\x7d\x7d" ∧
    claim_extract_json_object ("a\x7b[\x7d\x7dx") = "\x7b[\x7d\x7dx" ∧
    ("\x7b[\x7d\x7d" : String) ≠ "\x7b[\x7d\x7dx" :=
  ⟨rfl, rfl, by decide⟩

/-- C8 (amended): a mismatched closing delimiter does not abort the
scan — the unmatched top of the stack is popped and the character is
then skipped, with no return at that character even when the pop
empties the stack; the candidate substring (start to current offset
inclusive) is returned exactly when a matched closing delimiter
empties the stack.  `amended_extract_json_object` implements exactly
this description, and the extraction coincides with it on every
input. -/
theorem extract_json_object_amended (s : String) :
    extract_json_object s = amended_extract_json_object s := by
  simp only [extract_json_object, amended_extract_json_object,
    scanEnd_eq_amended_nil]

/-- C9: the heuristic judge is deterministic and independent of the
generation service: two calls with identical inputs, under arbitrary
(and arbitrarily different) service environments, produce identical
verdicts, field by field. -/
theorem heuristic_judge_deterministic (env1 env2 : GenEnv) (q x y : String) :
    heuristic_judge_pair env1 q x y = heuristic_judge_pair env2 q x y ∧
    (heuristic_judge_pair env1 q x y).X = (heuristic_judge_pair env2 q x y).X ∧
    (heuristic_judge_pair env1 q x y).Y = (heuristic_judge_pair env2 q x y).Y ∧
    (heuristic_judge_pair env1 q x y).winner =
      (heuristic_judge_pair env2 q x y).winner ∧
    (heuristic_judge_pair env1 q x y).reason =
      (heuristic_judge_pair env2 q x y).reason :=
  ⟨rfl, rfl, rfl, rfl, rfl⟩

/-- C10: when the service text is non-blank and the recovered candidate
parses as valid JSON whose top-level value is not an object,
generate_json returns the mapping wrapping that value under the single
key `data` — callers receive a dict even for non-object top-level
JSON. -/
theorem generate_json_wraps_nonobject (env : GenEnv) (loads : JsonLoads)
    (system user : String) (temp : ℚ) (t : String) (v : PyValue)
    (henv : env.genJsonRaw system user temp = .ok t)
    (hne : pyStrip t ≠ "")
    (hl : loads (extract_json_object (pyStrip t)) = .ok v)
    (hv : v.isDict = false) :
    generate_json env loads system user temp = .ok (.dict [("data", v)]) := by
  simp only [generate_json, henv, Except.map]
  congr 1
  simp only [safe_json_load, pyStrip_idem]
  rw [if_neg hne, hl]
  dsimp only
  rw [hv]
  rfl

theorem generate_json_wraps_nonobject_witness :
    (pyStrip "x [1, 2] tail" ≠ "") ∧
    generate_json envArr loadsList "s" "u" 0 =
      .ok (.dict [("data", .list [.int 1, .int 2])]) :=
  ⟨by decide,
   generate_json_wraps_nonobject envArr loadsList "s" "u" 0
     "x [1, 2] tail" (.list [.int 1, .int 2]) rfl (by decide) rfl rfl⟩
